import Mathlib

/-!
Verification development for the instance-pool scheduler
(svagent/advanced_docker_scheduler.py, class DockerScheduler).

The Python source is shallowly embedded: the registry `self.instances`
(a dict from instance id to DockerInstance) becomes an association list,
the asyncio ready queue becomes a FIFO list of ids, datetimes become Nat
timestamps, and each synchronous block of the coroutines (the code
between two `await` points) becomes one atomic operation.  Fallible or
external effects (the provisioner delete call, the outcome of the queue
`get`) are threaded as explicit parameters that select the branch the
Python code would take.
-/

/-- Mirrors `class InstanceStatus(Enum)` (scheduler lines 47-54). -/
inductive InstanceStatus where
  | creating
  | testing
  | ready
  | allocated
  | destroying
  | failed
deriving DecidableEq

/-- Mirrors `@dataclass class DockerInstance` (scheduler lines 56-67).
Timestamps are modelled as `Nat`; optional fields keep their `Optional`
type from the source. -/
structure DockerInstance where
  instance_id : String
  env_id : String
  endpoint : String
  status : InstanceStatus
  created_at : Nat
  allocated_at : Option Nat := none
  client_id : Option String := none
  last_health_check : Option Nat := none
  error_message : String := ""
deriving DecidableEq

/-- The monotone counters of `self.stats` (lines 99-105); `start_time`
is irrelevant to every claim and omitted. -/
structure Stats where
  total_created : Nat
  total_allocated : Nat
  total_destroyed : Nat
  total_failed : Nat
deriving DecidableEq

/-- The pool-size configuration of `DockerScheduler.__init__`
(lines 82-92): `pool_size` is the target size, `max_pool_size` the cap. -/
structure SchedConfig where
  pool_size : Nat
  max_pool_size : Nat
deriving DecidableEq

/-- `concurrent_creation_limit = 128` (line 277), a fixed constant in the
source. -/
def concurrent_creation_limit : Nat := 128

/-- The deficit computation of one `_pool_manager` cycle (lines 254-281):
`needed = pool_size - (ready + creating + testing)`,
`can_create = max_pool_size - total_instances`,
`creation_slots_available = max(0, limit - (creating + testing))`,
`actual_needed = min(needed, can_create, creation_slots_available)`.
Python ints are signed, so the computation lives in `Int`. -/
def actual_needed (cfg : SchedConfig)
    (ready_count creating_count testing_count total_instances : Nat) : Int :=
  let needed : Int :=
    (cfg.pool_size : Int) -
      ((ready_count : Int) + (creating_count : Int) + (testing_count : Int))
  let can_create : Int := (cfg.max_pool_size : Int) - (total_instances : Int)
  let ongoing_creations : Int := (creating_count : Int) + (testing_count : Int)
  let creation_slots_available : Int :=
    max 0 ((concurrent_creation_limit : Int) - ongoing_creations)
  min needed (min can_create creation_slots_available)

/-- How many `_create_instance()` coroutines one cycle launches
(lines 283-290): `range(actual_needed)` tasks when `actual_needed > 0`,
otherwise none — i.e. `actual_needed` clamped to a natural number. -/
def launchedCreations (cfg : SchedConfig)
    (ready_count creating_count testing_count total_instances : Nat) : Nat :=
  (actual_needed cfg ready_count creating_count testing_count total_instances).toNat

/-- Association-list view of the registry dict `self.instances`:
`m.get(id)`. -/
def lookupInst : List (String × DockerInstance) → String → Option DockerInstance
  | [], _ => none
  | p :: rest, id => if p.1 = id then some p.2 else lookupInst rest id

/-- In-place mutation of the record stored under `id`
(e.g. `instance.status = ...`). -/
def updateInst : List (String × DockerInstance) → String →
    (DockerInstance → DockerInstance) → List (String × DockerInstance)
  | [], _, _ => []
  | p :: rest, id, f =>
    if p.1 = id then (p.1, f p.2) :: updateInst rest id f
    else p :: updateInst rest id f

/-- `del self.instances[id]`. -/
def eraseInst : List (String × DockerInstance) → String → List (String × DockerInstance)
  | [], _ => []
  | p :: rest, id =>
    if p.1 = id then eraseInst rest id else p :: eraseInst rest id

/-- `sum(1 for inst in self.instances.values() if inst.status == s)`
(lines 255-257). -/
def countStatus : List (String × DockerInstance) → InstanceStatus → Nat
  | [], _ => 0
  | p :: rest, s => (if p.2.status = s then 1 else 0) + countStatus rest s

/-- The status currently recorded for `id`, `none` when the record has
been removed from the registry. -/
def statusOfM (m : List (String × DockerInstance)) (id : String) :
    Option InstanceStatus :=
  (lookupInst m id).map (fun r => r.status)

/-- The best-effort single-id drain of `_handle_unhealthy_instance`
(lines 371-383): the first occurrence of `id` is dropped, the relative
order of everything else is preserved. -/
def removeFirst (id : String) : List String → List String
  | [] => []
  | x :: xs => if x = id then xs else x :: removeFirst id xs

/-- The scheduler state the claims range over: the registry, the ready
queue (front = next to be dequeued), the counters, and `budget`, the
number of creation attempts the current pool-manager cycle has decided
to launch but that have not yet inserted their CREATING record. -/
structure SchedState where
  instances : List (String × DockerInstance)
  ready_queue : List String
  stats : Stats
  budget : Nat
deriving DecidableEq

/-- A freshly started scheduler: empty registry, empty queue, zeroed
counters (`__init__`, lines 94-105). -/
def initState : SchedState :=
  { instances := [], ready_queue := [], stats := ⟨0, 0, 0, 0⟩, budget := 0 }

/-- The record inserted at the top of `_create_instance` (lines 148-153). -/
def newInstance (id : String) (now : Nat) : DockerInstance :=
  { instance_id := id, env_id := "", endpoint := "",
    status := .creating, created_at := now }

/-- First half of `_destroy_instance` (lines 224-230): look the record
up; if absent, return unchanged; otherwise mark it DESTROYING.  The
`await manager.delete_env` suspension point separates this from
`destroyFinishFn`. -/
def destroyMarkFn (st : SchedState) (id : String) : SchedState :=
  match lookupInst st.instances id with
  | none => st
  | some _ =>
    { st with
      instances := updateInst st.instances id (fun r => { r with status := .destroying }) }

/-- Second half of `_destroy_instance`, the `finally` block
(lines 239-243): if the record is still present, delete it and increment
`total_destroyed`.  It runs whether or not `delete_env` succeeded. -/
def destroyFinishFn (st : SchedState) (id : String) : SchedState :=
  match lookupInst st.instances id with
  | none => st
  | some _ =>
    { st with
      instances := eraseInst st.instances id,
      stats := { st.stats with total_destroyed := st.stats.total_destroyed + 1 } }

/-- One complete `_destroy_instance(id)` call (lines 224-243).
`deleteOk` records whether the provisioner-side `delete_env` call
succeeded; the `try/except` around it only logs, so the local state
change is the same on both branches. -/
def destroy_instance (st : SchedState) (id : String) (deleteOk : Bool) : SchedState :=
  match deleteOk with
  | true => destroyFinishFn (destroyMarkFn st id) id
  | false => destroyFinishFn (destroyMarkFn st id) id

/-- Outcome of the attempt to obtain an id from the ready queue inside
`allocate_instance` (lines 424-431):
`delivered` — the `get` returned (the queue head);
`timeout` — `asyncio.TimeoutError` / `concurrent.futures.TimeoutError`
was raised (line 452);
`cancelled` — the waiting task was cancelled, as happens when the
scheduler (or its hosting loop) shuts down: `CancelledError` derives
from `BaseException` in modern Python, so neither `except` clause on
lines 452-458 catches it;
`raisedOther` — any other `Exception` (line 456), e.g. a closed-loop
`RuntimeError` from `run_coroutine_threadsafe`. -/
inductive QueueGet where
  | delivered
  | timeout
  | cancelled
  | raisedOther
deriving DecidableEq

/-- What an `allocate_instance` call does for its caller:
`grant inst` — returns the instance dict (line 450);
`unavailable` — returns `None` (lines 441, 454, 458), which the HTTP
facade maps to a retryable 503;
`fatal` — an uncaught `BaseException` (cancellation) propagates out of
the call. -/
inductive AllocResult where
  | grant (inst : DockerInstance)
  | unavailable
  | fatal
deriving DecidableEq

/-- The mutation applied to a record when it is handed to `client_id`
(lines 443-445). -/
def allocatedRecord (r : DockerInstance) (client_id : String) (now : Nat) :
    DockerInstance :=
  { r with status := .allocated, allocated_at := some now,
           client_id := some client_id }

/-- `async def allocate_instance(self, client_id)` (lines 414-458).
On `delivered` the dequeued id is the queue head; the record is
re-checked (line 434): missing or not READY means re-enqueue at the back
and return `None`; otherwise the record is allocated and returned. -/
def allocate_instance (st : SchedState) (client_id : String) (now : Nat)
    (get : QueueGet) : AllocResult × SchedState :=
  match get with
  | .timeout => (.unavailable, st)
  | .cancelled => (.fatal, st)
  | .raisedOther => (.unavailable, st)
  | .delivered =>
    match st.ready_queue with
    | [] => (.unavailable, st)
    | instance_id :: rest =>
      match lookupInst st.instances instance_id with
      | none => (.unavailable, { st with ready_queue := rest ++ [instance_id] })
      | some inst =>
        if inst.status = .ready then
          (.grant (allocatedRecord inst client_id now),
           { st with
             ready_queue := rest,
             instances :=
               updateInst st.instances instance_id
                 (fun r => allocatedRecord r client_id now),
             stats := { st.stats with
                        total_allocated := st.stats.total_allocated + 1 } })
        else
          (.unavailable, { st with ready_queue := rest ++ [instance_id] })

/-- `async def release_instance(self, instance_id, client_id)`
(lines 460-474): unknown id or owner mismatch returns `False` without
touching anything; otherwise the instance is destroyed and `True` is
returned. -/
def release_instance (st : SchedState) (instance_id : String)
    (client_id : Option String) (deleteOk : Bool) : Bool × SchedState :=
  match lookupInst st.instances instance_id with
  | none => (false, st)
  | some inst =>
    if inst.client_id = client_id then
      (true, destroy_instance st instance_id deleteOk)
    else
      (false, st)

/-- `async def _handle_unhealthy_instance(self, instance)`
(lines 365-386): drain the queue dropping the first occurrence of the
id (a no-op when the id is not queued), then destroy the instance. -/
def handle_unhealthy_instance (st : SchedState) (instance_id : String)
    (deleteOk : Bool) : SchedState :=
  destroy_instance
    { st with ready_queue := removeFirst instance_id st.ready_queue }
    instance_id deleteOk

/-!
The scheduler's global small-step semantics.  The pool manager, health
checker and client API share the registry on one event loop; every
synchronous block between two `await` points of the Python source is one
step.  Destruction appears at the granularity of its two halves
(`destroyMarkFn` / `destroyFinishFn`) because `_destroy_instance`
suspends between them; `release_instance` (on a matching owner),
`_handle_unhealthy_instance` and `shutdown` (which calls
`_destroy_instance` on every registered id whatever its status,
lines 137-143) all destroy through exactly these two halves.
-/
inductive Step (cfg : SchedConfig) : SchedState → SchedState → Prop where
  /-- One `_pool_manager` cycle counts the pool (lines 254-281) and
  decides how many creations to launch.  `await asyncio.gather(*tasks)`
  (line 290) blocks the cycle until every launched creation finished,
  so a new decision is only taken once the previous budget is gone. -/
  | pmGrant (st : SchedState) :
      st.budget = 0 →
      Step cfg st
        { st with
          budget := launchedCreations cfg st.ready_queue.length
            (countStatus st.instances .creating)
            (countStatus st.instances .testing)
            st.instances.length }
  /-- The synchronous head of `_create_instance` (lines 148-153): a
  fresh id is generated and a CREATING record inserted. -/
  | createStart (st : SchedState) (id : String) (now : Nat) :
      0 < st.budget →
      lookupInst st.instances id = none →
      Step cfg st
        { st with
          instances := (id, newInstance id now) :: st.instances,
          budget := st.budget - 1 }
  /-- `manager.create_env()` returned `env_id` and `endpoint`
  (lines 164-175): the record moves to TESTING. -/
  | provisionOk (st : SchedState) (id env ep : String) (r : DockerInstance) :
      lookupInst st.instances id = some r →
      r.status = .creating →
      Step cfg st
        { st with
          instances := updateInst st.instances id
            (fun x => { x with env_id := env, endpoint := ep, status := .testing }),
          stats := { st.stats with total_created := st.stats.total_created + 1 } }
  /-- `_test_instance_api` succeeded (lines 177-183): READY, health
  stamp, enqueue. -/
  | testOk (st : SchedState) (id : String) (now : Nat) (r : DockerInstance) :
      lookupInst st.instances id = some r →
      r.status = .testing →
      Step cfg st
        { st with
          instances := updateInst st.instances id
            (fun x => { x with status := .ready, last_health_check := some now }),
          ready_queue := st.ready_queue ++ [id] }
  /-- The `except` block of `_create_instance` (lines 187-191): the
  record, still CREATING or TESTING, is forced to FAILED.  The
  `_destroy_instance` call that follows is the mark/finish steps. -/
  | createFail (st : SchedState) (id msg : String) (r : DockerInstance) :
      lookupInst st.instances id = some r →
      r.status = .creating ∨ r.status = .testing →
      Step cfg st
        { st with
          instances := updateInst st.instances id
            (fun x => { x with status := .failed, error_message := msg }),
          stats := { st.stats with total_failed := st.stats.total_failed + 1 } }
  /-- One `allocate_instance` call (lines 414-458), atomic after the
  queue `get` resolves. -/
  | allocate (st : SchedState) (client_id : String) (now : Nat) (get : QueueGet) :
      Step cfg st (allocate_instance st client_id now get).2
  /-- First half of any `_destroy_instance` call on a registered id
  (lines 224-230); callers: creation failure, release, health ejection,
  shutdown — the last on records of every status. -/
  | destroyMark (st : SchedState) (id : String) (r : DockerInstance) :
      lookupInst st.instances id = some r →
      Step cfg st (destroyMarkFn st id)
  /-- Second half of `_destroy_instance` (the `finally`, lines 239-243). -/
  | destroyFinish (st : SchedState) (id : String) (r : DockerInstance) :
      lookupInst st.instances id = some r →
      r.status = .destroying →
      Step cfg st (destroyFinishFn st id)
  /-- The queue drain of `_handle_unhealthy_instance` (lines 371-383). -/
  | eject (st : SchedState) (id : String) :
      Step cfg st { st with ready_queue := removeFirst id st.ready_queue }

/-- States reachable from a freshly started scheduler. -/
def Reach (cfg : SchedConfig) (st : SchedState) : Prop :=
  Relation.ReflTransGen (Step cfg) initState st

/-!
Control-flow skeleton of the `_pool_manager` coroutine (lines 245-312),
used for the temporal claim about cycle blocking.  One loop iteration
is: compute the deficit and launch the creation tasks, then
`await asyncio.gather(*tasks)` (line 290), then `await asyncio.sleep`
(line 305), then loop.  `pending` counts the creation attempts launched
by the current cycle that have not yet finished.
-/
inductive PMPhase where
  | compute
  | gathering
  | sleeping
deriving DecidableEq

structure PMState where
  phase : PMPhase
  pending : Nat
deriving DecidableEq

inductive PMStep (cfg : SchedConfig) : PMState → PMState → Prop where
  /-- Lines 254-290: the deficit is computed from the observed counts
  and `launchedCreations` tasks are handed to `asyncio.gather`. -/
  | launch (p r c t tot : Nat) :
      PMStep cfg ⟨.compute, p⟩ ⟨.gathering, launchedCreations cfg r c t tot⟩
  /-- One of the gathered `_create_instance` tasks runs to completion. -/
  | creationFinishes (p : Nat) :
      PMStep cfg ⟨.gathering, p + 1⟩ ⟨.gathering, p⟩
  /-- `await asyncio.gather(*tasks)` (line 290) resumes the pool manager
  only once no launched creation is still unfinished. -/
  | gatherReturns : PMStep cfg ⟨.gathering, 0⟩ ⟨.sleeping, 0⟩
  /-- `await asyncio.sleep(sleep_time)` (line 305) elapses and the next
  cycle begins. -/
  | wake (p : Nat) : PMStep cfg ⟨.sleeping, p⟩ ⟨.compute, p⟩

/-- Pool-manager states reachable from the top of the loop. -/
def PMReach (cfg : SchedConfig) (s : PMState) : Prop :=
  Relation.ReflTransGen (PMStep cfg) ⟨.compute, 0⟩ s

/-!  Registry lemmas. -/

theorem lookupInst_updateInst_self (m : List (String × DockerInstance))
    (id : String) (f : DockerInstance → DockerInstance) :
    lookupInst (updateInst m id f) id = (lookupInst m id).map f := by
  induction m with
  | nil => rfl
  | cons p rest ih =>
    by_cases h : p.1 = id <;> simp [updateInst, lookupInst, h, ih]

theorem lookupInst_updateInst_ne (m : List (String × DockerInstance))
    (id id' : String) (f : DockerInstance → DockerInstance) (h : id' ≠ id) :
    lookupInst (updateInst m id f) id' = lookupInst m id' := by
  have h2 : ¬ id = id' := fun hh => h hh.symm
  induction m with
  | nil => rfl
  | cons p rest ih =>
    by_cases hp : p.1 = id
    · simp [updateInst, lookupInst, hp, h2, ih]
    · simp [updateInst, lookupInst, hp, ih]

theorem lookupInst_eraseInst_self (m : List (String × DockerInstance))
    (id : String) : lookupInst (eraseInst m id) id = none := by
  induction m with
  | nil => rfl
  | cons p rest ih =>
    by_cases h : p.1 = id <;> simp [eraseInst, lookupInst, h, ih]

theorem lookupInst_eraseInst_ne (m : List (String × DockerInstance))
    (id id' : String) (h : id' ≠ id) :
    lookupInst (eraseInst m id) id' = lookupInst m id' := by
  have h2 : ¬ id = id' := fun hh => h hh.symm
  induction m with
  | nil => rfl
  | cons p rest ih =>
    by_cases hp : p.1 = id
    · simp [eraseInst, lookupInst, hp, h2, ih]
    · simp [eraseInst, lookupInst, hp, ih]

theorem length_updateInst (m : List (String × DockerInstance))
    (id : String) (f : DockerInstance → DockerInstance) :
    (updateInst m id f).length = m.length := by
  induction m with
  | nil => rfl
  | cons p rest ih =>
    by_cases h : p.1 = id <;> simp [updateInst, h, ih]

theorem length_eraseInst_le (m : List (String × DockerInstance))
    (id : String) : (eraseInst m id).length ≤ m.length := by
  induction m with
  | nil => exact Nat.le_refl 0
  | cons p rest ih =>
    by_cases h : p.1 = id
    · simp only [eraseInst, if_pos h]
      exact Nat.le_succ_of_le ih
    · simp only [eraseInst, if_neg h, List.length_cons]
      exact Nat.succ_le_succ ih

/-!  Observed status edges. -/

/-- The transitions the specification lists as the only allowed ones:
CREATING→TESTING, TESTING→READY, TESTING→FAILED, READY→ALLOCATED,
READY→DESTROYING, ALLOCATED→DESTROYING, any state→FAILED,
FAILED→DESTROYING. -/
def spec_allowed : InstanceStatus → InstanceStatus → Bool
  | _, .failed => true
  | .creating, .testing => true
  | .testing, .ready => true
  | .ready, .allocated => true
  | .ready, .destroying => true
  | .allocated, .destroying => true
  | .failed, .destroying => true
  | _, _ => false

/-- The edges the code actually takes: everything the specification
lists, plus CREATING→DESTROYING and TESTING→DESTROYING
(`_destroy_instance` marks DESTROYING whatever the current status, and
`shutdown` invokes it on every registered id, lines 137-143 and 229). -/
def code_allowed : InstanceStatus → InstanceStatus → Bool
  | .creating, .destroying => true
  | .testing, .destroying => true
  | a, b => spec_allowed a b

/-- What may happen to one record's status across one step, for a given
set of allowed edges: it stays put or moves along an allowed edge;
a record disappears only from DESTROYING; a record appears only as
CREATING. -/
def RecordEdgeOK (allowed : InstanceStatus → InstanceStatus → Bool) :
    Option InstanceStatus → Option InstanceStatus → Prop
  | some a, some b => a = b ∨ allowed a b = true
  | some a, none => a = .destroying
  | none, some b => b = .creating
  | none, none => True

/-- Every record's status respects the allowed edges between the two
registries. -/
def EdgesOK (allowed : InstanceStatus → InstanceStatus → Bool)
    (m m' : List (String × DockerInstance)) : Prop :=
  ∀ id, RecordEdgeOK allowed (statusOfM m id) (statusOfM m' id)

theorem edgesOK_refl (allowed : InstanceStatus → InstanceStatus → Bool)
    (m : List (String × DockerInstance)) : EdgesOK allowed m m := by
  intro id
  unfold RecordEdgeOK
  cases statusOfM m id with
  | none => trivial
  | some a => exact Or.inl rfl

theorem edgesOK_update (allowed : InstanceStatus → InstanceStatus → Bool)
    (m : List (String × DockerInstance)) (id : String)
    (f : DockerInstance → DockerInstance) (r : DockerInstance)
    (h : lookupInst m id = some r)
    (hf : r.status = (f r).status ∨ allowed r.status (f r).status = true) :
    EdgesOK allowed m (updateInst m id f) := by
  intro id'
  by_cases hid : id' = id
  · subst hid
    unfold statusOfM
    rw [lookupInst_updateInst_self, h]
    exact hf
  · unfold statusOfM
    rw [lookupInst_updateInst_ne m id id' f hid]
    cases lookupInst m id' with
    | none => trivial
    | some a => exact Or.inl rfl

theorem edgesOK_insert (allowed : InstanceStatus → InstanceStatus → Bool)
    (m : List (String × DockerInstance)) (id : String) (x : DockerInstance)
    (h : lookupInst m id = none) (hx : x.status = .creating) :
    EdgesOK allowed m ((id, x) :: m) := by
  intro id'
  by_cases hid : id' = id
  · subst hid
    unfold statusOfM
    rw [h]
    simp only [lookupInst, if_pos rfl, Option.map_none, Option.map_some]
    show RecordEdgeOK allowed none (some x.status)
    rw [hx]
    exact rfl
  · unfold statusOfM
    have h3 : ¬ id = id' := fun hh => hid hh.symm
    have : lookupInst ((id, x) :: m) id' = lookupInst m id' := by
      simp [lookupInst, h3]
    rw [this]
    cases lookupInst m id' with
    | none => trivial
    | some a => exact Or.inl rfl

theorem edgesOK_erase (allowed : InstanceStatus → InstanceStatus → Bool)
    (m : List (String × DockerInstance)) (id : String) (r : DockerInstance)
    (h : lookupInst m id = some r) (hr : r.status = .destroying) :
    EdgesOK allowed m (eraseInst m id) := by
  intro id'
  by_cases hid : id' = id
  · subst hid
    unfold statusOfM
    rw [lookupInst_eraseInst_self, h]
    exact hr
  · unfold statusOfM
    rw [lookupInst_eraseInst_ne m id id' hid]
    cases lookupInst m id' with
    | none => trivial
    | some a => exact Or.inl rfl

/-- The state an `allocate_instance` call leaves behind respects the
code's status edges (only READY→ALLOCATED on the grant path). -/
theorem edgesOK_allocate (st : SchedState) (client_id : String) (now : Nat)
    (get : QueueGet) :
    EdgesOK code_allowed st.instances
      (allocate_instance st client_id now get).2.instances := by
  cases get with
  | timeout => exact edgesOK_refl _ _
  | cancelled => exact edgesOK_refl _ _
  | raisedOther => exact edgesOK_refl _ _
  | delivered =>
    cases hq : st.ready_queue with
    | nil =>
      simp only [allocate_instance, hq]
      exact edgesOK_refl _ _
    | cons instance_id rest =>
      cases hl : lookupInst st.instances instance_id with
      | none =>
        simp only [allocate_instance, hq, hl]
        exact edgesOK_refl _ _
      | some inst =>
        by_cases hs : inst.status = .ready
        · simp only [allocate_instance, hq, hl, if_pos hs]
          exact edgesOK_update code_allowed st.instances instance_id
            (fun r => allocatedRecord r client_id now) inst hl
            (Or.inr (by rw [hs]; rfl))
        · simp only [allocate_instance, hq, hl, if_neg hs]
          exact edgesOK_refl _ _

theorem edgesOK_destroyMark (st : SchedState) (id : String) :
    EdgesOK code_allowed st.instances (destroyMarkFn st id).instances := by
  unfold destroyMarkFn
  cases hl : lookupInst st.instances id with
  | none => exact edgesOK_refl _ _
  | some r =>
    exact edgesOK_update code_allowed st.instances id
      (fun x => { x with status := .destroying }) r hl
      (by cases hr : r.status <;> simp [code_allowed, spec_allowed])

theorem edgesOK_destroyFinish (st : SchedState) (id : String)
    (r : DockerInstance) (hl : lookupInst st.instances id = some r)
    (hr : r.status = .destroying) :
    EdgesOK code_allowed st.instances (destroyFinishFn st id).instances := by
  unfold destroyFinishFn
  rw [hl]
  exact edgesOK_erase code_allowed st.instances id r hl hr

/-- C1 (amended): Across every step of the scheduler — pool-manager
cycle, creation start, provisioner return, readiness probe, creation
failure, allocation, either half of destruction, health ejection — each
record's status changes only along CREATING→TESTING, TESTING→READY,
TESTING→FAILED, READY→ALLOCATED, READY→DESTROYING, ALLOCATED→DESTROYING,
any state→FAILED, FAILED→DESTROYING, DESTROYING→removed,
plus CREATING→DESTROYING and TESTING→DESTROYING (shutdown, and any
other `_destroy_instance` caller, marks DESTROYING whatever the current
status is); records enter the registry only as CREATING. -/
theorem c1_status_edges_amended (cfg : SchedConfig) (st st' : SchedState)
    (h : Step cfg st st') : EdgesOK code_allowed st.instances st'.instances := by
  cases h with
  | pmGrant hb => exact edgesOK_refl _ _
  | createStart id now hb hfresh =>
    exact edgesOK_insert code_allowed st.instances id (newInstance id now) hfresh rfl
  | provisionOk id env ep r hl hr =>
    exact edgesOK_update code_allowed st.instances id
      (fun x => { x with env_id := env, endpoint := ep, status := .testing }) r hl
      (Or.inr (by rw [hr]; rfl))
  | testOk id now r hl hr =>
    exact edgesOK_update code_allowed st.instances id
      (fun x => { x with status := .ready, last_health_check := some now }) r hl
      (Or.inr (by rw [hr]; rfl))
  | createFail id msg r hl hr =>
    refine edgesOK_update code_allowed st.instances id
      (fun x => { x with status := .failed, error_message := msg }) r hl (Or.inr ?_)
    cases hr with
    | inl h1 => rw [h1]; rfl
    | inr h1 => rw [h1]; rfl
  | allocate client_id now get => exact edgesOK_allocate st client_id now get
  | destroyMark id r hl => exact edgesOK_destroyMark st id
  | destroyFinish id r hl hr => exact edgesOK_destroyFinish st id r hl hr
  | eject id => exact edgesOK_refl _ _

/-- A concrete run refuting the claim as stated: target 1, cap 4. -/
def exCfg : SchedConfig := ⟨1, 4⟩

/-- After the first pool-manager cycle decides to create one instance. -/
def exS1 : SchedState :=
  { initState with
    budget := launchedCreations exCfg initState.ready_queue.length
      (countStatus initState.instances .creating)
      (countStatus initState.instances .testing)
      initState.instances.length }

/-- After the launched creation inserts its CREATING record. -/
def exS2 : SchedState :=
  { exS1 with
    instances := ("i1", newInstance "i1" 0) :: exS1.instances,
    budget := exS1.budget - 1 }

/-- After `_destroy_instance("i1")` (called by `shutdown` on the still
CREATING record) marks it DESTROYING. -/
def exS3 : SchedState := destroyMarkFn exS2 "i1"

/-- C1 (counterexample): The transition CREATING→DESTROYING is
observed on a real run — a creation is still CREATING when
`_destroy_instance` (here: the `shutdown` path) marks it DESTROYING —
yet it is not among the edges the claim allows.  So the claim's edge
list is too small. -/
theorem c1_counterexample :
    Reach exCfg exS2 ∧
    Step exCfg exS2 exS3 ∧
    statusOfM exS2.instances "i1" = some .creating ∧
    statusOfM exS3.instances "i1" = some .destroying ∧
    spec_allowed .creating .destroying = false := by
  refine ⟨?_, ?_, ?_, ?_, ?_⟩
  · exact Relation.ReflTransGen.tail
      (Relation.ReflTransGen.tail Relation.ReflTransGen.refl
        (Step.pmGrant initState rfl))
      (Step.createStart exS1 "i1" 0 (by decide) rfl)
  · exact Step.destroyMark exS2 "i1" (newInstance "i1" 0) rfl
  · rfl
  · rfl
  · rfl

/-- C1 (witness): The amended edge property, instantiated on the
concrete CREATING→DESTROYING step above. -/
theorem c1_witness : EdgesOK code_allowed exS2.instances exS3.instances :=
  c1_status_edges_amended exCfg exS2 exS3
    (Step.destroyMark exS2 "i1" (newInstance "i1" 0) rfl)

/-- Clamping the innermost operand of a min-chain at zero commutes with
clamping the whole chain at zero. -/
theorem int_min_clamp (a b c : Int) :
    max (min a (min b (max 0 c))) 0 = max 0 (min a (min b c)) := by
  simp only [min_def, max_def]
  split_ifs <;> omega

/-- C2: in every pool-manager cycle the number of creation attempts
launched equals min(needed, capacity_room, creation_room) clamped to
be at least 0, where needed = pool_size − (ready + creating + testing),
capacity_room = max_pool_size − total_instances and creation_room =
concurrent_creation_limit − (creating + testing); at startup with
target 2 and cap 4 exactly 2 attempts are launched; and no attempt is
launched while the active count equals the target. -/
theorem c2_deficit_formula (cfg : SchedConfig)
    (r c t tot : Nat) :
    ((launchedCreations cfg r c t tot : Int) =
      max 0 (min ((cfg.pool_size : Int) - ((r : Int) + (c : Int) + (t : Int)))
        (min ((cfg.max_pool_size : Int) - (tot : Int))
          ((concurrent_creation_limit : Int) - ((c : Int) + (t : Int)))))) ∧
    launchedCreations ⟨2, 4⟩ 0 0 0 0 = 2 ∧
    (r + c + t = cfg.pool_size → launchedCreations cfg r c t tot = 0) := by
  refine ⟨?_, by decide, ?_⟩
  · unfold launchedCreations
    rw [Int.toNat_eq_max]
    show max (min ((cfg.pool_size : Int) - ((r : Int) + (c : Int) + (t : Int)))
      (min ((cfg.max_pool_size : Int) - (tot : Int))
        (max 0 ((concurrent_creation_limit : Int) - ((c : Int) + (t : Int)))))) 0 =
      max 0 (min ((cfg.pool_size : Int) - ((r : Int) + (c : Int) + (t : Int)))
        (min ((cfg.max_pool_size : Int) - (tot : Int))
          ((concurrent_creation_limit : Int) - ((c : Int) + (t : Int)))))
    exact int_min_clamp _ _ _
  · intro hact
    have h1 : actual_needed cfg r c t tot ≤
        (cfg.pool_size : Int) - ((r : Int) + (c : Int) + (t : Int)) :=
      min_le_left _ _
    unfold launchedCreations
    omega

/-- C2 (witness): the formula instantiated at a concrete cycle where the
active count (1 ready + 2 creating + 0 testing) equals the target 3:
no creation is launched. -/
theorem c2_witness : launchedCreations ⟨3, 10⟩ 1 2 0 3 = 0 :=
  (c2_deficit_formula ⟨3, 10⟩ 1 2 0 3).2.2 (by decide)

/-- Inductive invariant of the pool-manager control flow: outside the
`await asyncio.gather` phase, no launched creation of the current batch
is still unfinished. -/
theorem pm_pending_inv (cfg : SchedConfig) (s : PMState) (h : PMReach cfg s) :
    s.phase = .compute ∨ s.phase = .sleeping → s.pending = 0 := by
  induction h with
  | refl => intro _; rfl
  | tail hab hbc ih =>
    cases hbc with
    | launch p r c t tot => intro hp; cases hp with
      | inl h1 => exact absurd h1 (by intro h2; cases h2)
      | inr h1 => exact absurd h1 (by intro h2; cases h2)
    | creationFinishes p => intro hp; cases hp with
      | inl h1 => exact absurd h1 (by intro h2; cases h2)
      | inr h1 => exact absurd h1 (by intro h2; cases h2)
    | gatherReturns => intro _; rfl
    | wake p => intro _; exact ih (Or.inr rfl)

/-- C3 (counterexample): the claim that the next deficit computation can
run before the launched creations finish is false — `_pool_manager`
reaches its next `needed = ...` computation only through
`await asyncio.gather(*tasks)` (line 290), which resumes it only once
every launched creation attempt has completed.  No reachable
pool-manager state is computing the deficit while a creation launched
by the previous cycle is unfinished. -/
theorem c3_counterexample :
    ¬ ∃ s : PMState, PMReach ⟨2, 4⟩ s ∧ s.phase = .compute ∧ 0 < s.pending := by
  rintro ⟨s, hr, hp, hpos⟩
  have h0 := pm_pending_inv ⟨2, 4⟩ s hr (Or.inl hp)
  omega

/-- C3 (amended): when a pool-manager cycle decides to launch actual > 0
creation attempts, it launches them as concurrent attempts but blocks
the cycle on `await asyncio.gather` until all of them complete: the next
deficit computation runs only when no launched creation is unfinished. -/
theorem c3_gather_blocks (cfg : SchedConfig) (s : PMState)
    (h : PMReach cfg s) (hc : s.phase = .compute) : s.pending = 0 :=
  pm_pending_inv cfg s h (Or.inl hc)

/-- C3 (witness): a full concrete cycle — launch 2 creations, both
finish, gather resumes, sleep elapses — ends at the next deficit
computation with nothing pending. -/
theorem c3_witness : (⟨PMPhase.compute, 0⟩ : PMState).pending = 0 :=
  c3_gather_blocks ⟨2, 4⟩ ⟨.compute, 0⟩
    (Relation.ReflTransGen.tail
      (Relation.ReflTransGen.tail
        (Relation.ReflTransGen.tail
          (Relation.ReflTransGen.tail
            (Relation.ReflTransGen.tail Relation.ReflTransGen.refl
              (show PMStep ⟨2, 4⟩ ⟨.compute, 0⟩ ⟨.gathering, 2⟩ from
                (by have h2 : launchedCreations ⟨2, 4⟩ 0 0 0 0 = 2 := by decide
                    exact h2 ▸ PMStep.launch 0 0 0 0 0)))
            (PMStep.creationFinishes 1))
          (PMStep.creationFinishes 0))
        PMStep.gatherReturns)
      (PMStep.wake 0))
    rfl

/-- C4: when the dequeued id's record is missing or no longer READY,
`allocate_instance` pushes the id back onto the back of the ready queue,
returns Unavailable with registry, stats and budget untouched, and does
not retry; consequently whenever a grant is returned, the dequeued
record was READY at that moment (and is ALLOCATED afterwards). -/
theorem c4_allocate_recheck (st : SchedState) (client_id : String) (now : Nat) :
    (∀ id rest, st.ready_queue = id :: rest →
      (lookupInst st.instances id = none ∨
        ∃ r, lookupInst st.instances id = some r ∧ r.status ≠ .ready) →
      allocate_instance st client_id now .delivered =
        (.unavailable, { st with ready_queue := rest ++ [id] })) ∧
    (∀ get inst, (allocate_instance st client_id now get).1 = .grant inst →
      ∃ id rest r, st.ready_queue = id :: rest ∧
        lookupInst st.instances id = some r ∧ r.status = .ready ∧
        inst = allocatedRecord r client_id now ∧
        statusOfM (allocate_instance st client_id now get).2.instances id =
          some .allocated) := by
  constructor
  · intro id rest hq hbad
    cases hbad with
    | inl hnone => simp only [allocate_instance, hq, hnone]
    | inr hsome =>
      obtain ⟨r, hl, hs⟩ := hsome
      simp only [allocate_instance, hq, hl, if_neg hs]
  · intro get inst hgrant
    cases get with
    | timeout => exact absurd hgrant (by simp [allocate_instance])
    | cancelled => exact absurd hgrant (by simp [allocate_instance])
    | raisedOther => exact absurd hgrant (by simp [allocate_instance])
    | delivered =>
      cases hq : st.ready_queue with
      | nil =>
        rw [allocate_instance] at hgrant
        simp only [hq] at hgrant
        exact AllocResult.noConfusion hgrant
      | cons id rest =>
        cases hl : lookupInst st.instances id with
        | none =>
          rw [allocate_instance] at hgrant
          simp only [hq, hl] at hgrant
          exact AllocResult.noConfusion hgrant
        | some r =>
          by_cases hs : r.status = .ready
          · refine ⟨id, rest, r, rfl, hl, hs, ?_, ?_⟩
            · rw [allocate_instance] at hgrant
              simp only [hq, hl, if_pos hs] at hgrant
              cases hgrant
              rfl
            · rw [allocate_instance]
              simp only [hq, hl, if_pos hs]
              unfold statusOfM
              rw [lookupInst_updateInst_self, hl]
              rfl
          · rw [allocate_instance] at hgrant
            simp only [hq, hl, if_neg hs] at hgrant
            exact AllocResult.noConfusion hgrant

/-- A state whose ready queue holds an id whose record has already been
marked DESTROYING by a health ejection racing the allocation. -/
def exStC4 : SchedState :=
  { instances := [("a1", { newInstance "a1" 0 with status := .destroying })],
    ready_queue := ["a1"],
    stats := ⟨1, 0, 0, 0⟩,
    budget := 0 }

/-- C4 (witness): dequeuing the non-READY id pushes it back and the call
returns Unavailable. -/
theorem c4_witness :
    allocate_instance exStC4 "client-7" 5 .delivered =
      (.unavailable, { exStC4 with ready_queue := [] ++ ["a1"] }) :=
  (c4_allocate_recheck exStC4 "client-7" 5).1 "a1" [] rfl
    (Or.inr ⟨{ newInstance "a1" 0 with status := .destroying }, rfl, by decide⟩)

/-- C5: allocation-timeout expiry returns Unavailable (`None`, a
retryable 503 to the HTTP caller) and leaves the state untouched, while
scheduler shutdown surfaces as cancellation of the waiting task —
`CancelledError` derives from `BaseException`, is caught by neither
`except` clause of `allocate_instance` (lines 452-458), and therefore
propagates as a fatal error distinct from Unavailable. -/
theorem c5_timeout_vs_shutdown (st : SchedState) (client_id : String) (now : Nat) :
    allocate_instance st client_id now .timeout = (.unavailable, st) ∧
    allocate_instance st client_id now .cancelled = (.fatal, st) ∧
    (AllocResult.fatal ≠ AllocResult.unavailable) := by
  exact ⟨rfl, rfl, by decide⟩

/-- Both delete outcomes run the same local bookkeeping: the `finally`
block executes whether `delete_env` returned or raised. -/
theorem destroy_instance_eq (st : SchedState) (id : String) (d : Bool) :
    destroy_instance st id d = destroyFinishFn (destroyMarkFn st id) id := by
  cases d <;> rfl

theorem destroyMarkFn_of_absent (st : SchedState) (id : String)
    (h : lookupInst st.instances id = none) : destroyMarkFn st id = st := by
  unfold destroyMarkFn
  rw [h]

theorem destroyFinishFn_of_absent (st : SchedState) (id : String)
    (h : lookupInst st.instances id = none) : destroyFinishFn st id = st := by
  unfold destroyFinishFn
  rw [h]

theorem destroy_of_absent (st : SchedState) (id : String) (d : Bool)
    (h : lookupInst st.instances id = none) : destroy_instance st id d = st := by
  rw [destroy_instance_eq, destroyMarkFn_of_absent st id h,
    destroyFinishFn_of_absent st id h]

theorem destroyMarkFn_of_present (st : SchedState) (id : String)
    (r : DockerInstance) (h : lookupInst st.instances id = some r) :
    destroyMarkFn st id =
      { st with
        instances :=
          updateInst st.instances id (fun x => { x with status := .destroying }) } := by
  unfold destroyMarkFn
  rw [h]

/-- Local effect of one complete `_destroy_instance` call on a
registered id: the record is gone, `total_destroyed` went up by one, and
the ready queue, the remaining records and the budget are untouched. -/
theorem destroy_of_present (st : SchedState) (id : String) (d : Bool)
    (r : DockerInstance) (h : lookupInst st.instances id = some r) :
    lookupInst (destroy_instance st id d).instances id = none ∧
    (destroy_instance st id d).stats.total_destroyed =
      st.stats.total_destroyed + 1 ∧
    (destroy_instance st id d).ready_queue = st.ready_queue ∧
    (destroy_instance st id d).budget = st.budget := by
  rw [destroy_instance_eq, destroyMarkFn_of_present st id r h]
  have h1 : lookupInst
      (updateInst st.instances id (fun x => { x with status := .destroying })) id =
      some { r with status := .destroying } := by
    rw [lookupInst_updateInst_self, h]
    rfl
  unfold destroyFinishFn
  simp only [h1]
  simp [lookupInst_eraseInst_self]

theorem destroy_ready_queue (st : SchedState) (id : String) (d : Bool) :
    (destroy_instance st id d).ready_queue = st.ready_queue := by
  cases h : lookupInst st.instances id with
  | none => rw [destroy_of_absent st id d h]
  | some r => exact (destroy_of_present st id d r h).2.2.1

/-- C6: `release_instance` returns false and mutates nothing when the
instance is unknown or when the caller's client_id differs from the
record's owner (an ALLOCATED record stays exactly as it was); on an
owner match it unconditionally destroys the instance — the record
leaves the registry, `total_destroyed` is incremented — and returns
true, for either outcome of the provisioner-side delete. -/
theorem c6_release_ownership (st : SchedState) (id : String)
    (c : Option String) (d : Bool) :
    (lookupInst st.instances id = none → release_instance st id c d = (false, st)) ∧
    (∀ r, lookupInst st.instances id = some r → r.client_id ≠ c →
      release_instance st id c d = (false, st)) ∧
    (∀ r, lookupInst st.instances id = some r → r.client_id = c →
      (release_instance st id c d).1 = true ∧
      lookupInst (release_instance st id c d).2.instances id = none ∧
      (release_instance st id c d).2.stats.total_destroyed =
        st.stats.total_destroyed + 1) := by
  refine ⟨?_, ?_, ?_⟩
  · intro h
    unfold release_instance
    rw [h]
  · intro r h hne
    unfold release_instance
    simp only [h, if_neg hne]
  · intro r h heq
    have hrel : release_instance st id c d = (true, destroy_instance st id d) := by
      unfold release_instance
      simp only [h, if_pos heq]
    rw [hrel]
    exact ⟨rfl, (destroy_of_present st id d r h).1,
      (destroy_of_present st id d r h).2.1⟩

/-- An ALLOCATED record owned by client "c9". -/
def exRecB1 : DockerInstance :=
  { instance_id := "b1", env_id := "env-b1", endpoint := "10.0.0.5:8000",
    status := .allocated, created_at := 3, allocated_at := some 4,
    client_id := some "c9", last_health_check := some 3, error_message := "" }

/-- A state holding one ALLOCATED instance owned by client "c9". -/
def exStC6 : SchedState :=
  { instances := [("b1", exRecB1)],
    ready_queue := [],
    stats := ⟨1, 1, 0, 0⟩,
    budget := 0 }

/-- C6 (witness): a non-owner's release is rejected with the state
untouched; the owner's release destroys the record and returns true. -/
theorem c6_witness :
    release_instance exStC6 "b1" (some "intruder") true = (false, exStC6) ∧
    (release_instance exStC6 "b1" (some "c9") false).1 = true ∧
    lookupInst (release_instance exStC6 "b1" (some "c9") false).2.instances "b1" =
      none :=
  ⟨(c6_release_ownership exStC6 "b1" (some "intruder") true).2.1
      exRecB1 rfl (by decide),
   ((c6_release_ownership exStC6 "b1" (some "c9") false).2.2
      exRecB1 rfl rfl).1,
   ((c6_release_ownership exStC6 "b1" (some "c9") false).2.2
      exRecB1 rfl rfl).2.1⟩

/-- C7: `_destroy_instance` is idempotent — on an already-removed id it
changes nothing, a repeated call collapses to a single one, and the
pending `finally` of an interleaved first call is a no-op after a second
call completed — and on every registered id it removes the record and
increments total_destroyed even when the provisioner-side delete fails
(the `deleteOk` argument is universally quantified). -/
theorem c7_destroy_idempotent (st : SchedState) (id : String) (d d' : Bool) :
    (lookupInst st.instances id = none → destroy_instance st id d = st) ∧
    destroy_instance (destroy_instance st id d) id d' = destroy_instance st id d ∧
    (∀ r, lookupInst st.instances id = some r →
      destroyFinishFn (destroy_instance st id d) id = destroy_instance st id d ∧
      lookupInst (destroy_instance st id d).instances id = none ∧
      (destroy_instance st id d).stats.total_destroyed =
        st.stats.total_destroyed + 1) := by
  refine ⟨destroy_of_absent st id d, ?_, ?_⟩
  · cases h : lookupInst st.instances id with
    | none =>
      rw [destroy_of_absent st id d h, destroy_of_absent st id d' h]
    | some r =>
      exact destroy_of_absent _ id d' (destroy_of_present st id d r h).1
  · intro r h
    exact ⟨destroyFinishFn_of_absent _ id (destroy_of_present st id d r h).1,
      (destroy_of_present st id d r h).1,
      (destroy_of_present st id d r h).2.1⟩

/-- C7 (witness): destroying the ALLOCATED record of `exStC6` with a
failing provisioner delete still clears the registry entry and counts
one destruction, and destroying it again changes nothing further. -/
theorem c7_witness :
    lookupInst (destroy_instance exStC6 "b1" false).instances "b1" = none ∧
    (destroy_instance exStC6 "b1" false).stats.total_destroyed = 1 ∧
    destroy_instance (destroy_instance exStC6 "b1" false) "b1" true =
      destroy_instance exStC6 "b1" false :=
  ⟨((c7_destroy_idempotent exStC6 "b1" false true).2.2 exRecB1 rfl).2.1,
   ((c7_destroy_idempotent exStC6 "b1" false true).2.2 exRecB1 rfl).2.2,
   (c7_destroy_idempotent exStC6 "b1" false true).2.1⟩

theorem removeFirst_of_not_mem (id : String) (l : List String)
    (h : id ∉ l) : removeFirst id l = l := by
  induction l with
  | nil => rfl
  | cons x xs ih =>
    simp only [List.mem_cons, not_or] at h
    have h1 : ¬ x = id := fun hx => h.1 hx.symm
    unfold removeFirst
    rw [if_neg h1, ih h.2]

/-- C8: for a registered instance whose health probe failed, the handler
leaves the ready queue with the first occurrence of its id removed (a
no-op when the id is not queued, e.g. because an allocation already
dequeued it) and destroys the instance — the record, even a by-now
ALLOCATED one, leaves the registry and total_destroyed is incremented. -/
theorem c8_health_ejection (st : SchedState) (id : String) (d : Bool) :
    (∀ r, lookupInst st.instances id = some r →
      (handle_unhealthy_instance st id d).ready_queue =
        removeFirst id st.ready_queue ∧
      lookupInst (handle_unhealthy_instance st id d).instances id = none ∧
      (handle_unhealthy_instance st id d).stats.total_destroyed =
        st.stats.total_destroyed + 1) ∧
    (id ∉ st.ready_queue →
      (handle_unhealthy_instance st id d).ready_queue = st.ready_queue) := by
  constructor
  · intro r h
    unfold handle_unhealthy_instance
    refine ⟨?_, ?_, ?_⟩
    · exact destroy_ready_queue _ id d
    · exact (destroy_of_present
        { st with ready_queue := removeFirst id st.ready_queue } id d r h).1
    · exact (destroy_of_present
        { st with ready_queue := removeFirst id st.ready_queue } id d r h).2.1
  · intro hnm
    unfold handle_unhealthy_instance
    rw [destroy_ready_queue]
    exact removeFirst_of_not_mem id st.ready_queue hnm

/-- C8 (witness): `exStC6`'s instance "b1" is ALLOCATED and no longer
queued; handling it as unhealthy leaves the queue untouched and still
removes the ALLOCATED record. -/
theorem c8_witness :
    (handle_unhealthy_instance exStC6 "b1" true).ready_queue =
      exStC6.ready_queue ∧
    lookupInst (handle_unhealthy_instance exStC6 "b1" true).instances "b1" =
      none :=
  ⟨(c8_health_ejection exStC6 "b1" true).2 (by decide),
   ((c8_health_ejection exStC6 "b1" true).1 exRecB1 rfl).2.1⟩

/-- C10: the ownership check of `release_instance` is plain equality on
the record's client_id, including the unset case — for a record that was
never allocated (client_id is None), release with any client string is
rejected with nothing mutated, while release with client None passes the
check and destroys the instance, returning true. -/
theorem c10_release_none_owner (st : SchedState) (id : String) (d : Bool)
    (r : DockerInstance) (h : lookupInst st.instances id = some r)
    (hc : r.client_id = none) :
    (∀ c : String, release_instance st id (some c) d = (false, st)) ∧
    ((release_instance st id none d).1 = true ∧
      lookupInst (release_instance st id none d).2.instances id = none ∧
      (release_instance st id none d).2.stats.total_destroyed =
        st.stats.total_destroyed + 1) := by
  constructor
  · intro c
    refine (c6_release_ownership st id (some c) d).2.1 r h ?_
    rw [hc]
    exact fun hh => Option.noConfusion hh
  · exact (c6_release_ownership st id none d).2.2 r h hc

/-- A never-allocated READY record: client_id was never set. -/
def exRecD1 : DockerInstance :=
  { instance_id := "d1", env_id := "env-d1", endpoint := "10.0.0.6:8000",
    status := .ready, created_at := 7, allocated_at := none,
    client_id := none, last_health_check := some 8, error_message := "" }

/-- A state holding one READY, never-allocated instance. -/
def exStC10 : SchedState :=
  { instances := [("d1", exRecD1)],
    ready_queue := ["d1"],
    stats := ⟨1, 0, 0, 0⟩,
    budget := 0 }

/-- C10 (witness): on the never-allocated READY record, release with a
concrete client string is rejected, while release with None destroys
the record. -/
theorem c10_witness :
    release_instance exStC10 "d1" (some "worker-3") true = (false, exStC10) ∧
    (release_instance exStC10 "d1" none true).1 = true ∧
    lookupInst (release_instance exStC10 "d1" none true).2.instances "d1" =
      none :=
  ⟨(c10_release_none_owner exStC10 "d1" true exRecD1 rfl rfl).1 "worker-3",
   (c10_release_none_owner exStC10 "d1" true exRecD1 rfl rfl).2.1,
   (c10_release_none_owner exStC10 "d1" true exRecD1 rfl rfl).2.2.1⟩

/-- The per-cycle launch count never exceeds the remaining capacity:
`actual_needed` is capped by `can_create = max_pool_size − total`. -/
theorem launched_le_capacity (cfg : SchedConfig) (r c t tot : Nat) :
    launchedCreations cfg r c t tot ≤ cfg.max_pool_size - tot := by
  have h1 : actual_needed cfg r c t tot ≤
      (cfg.max_pool_size : Int) - (tot : Int) := by
    unfold actual_needed
    exact le_trans (min_le_right _ _) (min_le_left _ _)
  unfold launchedCreations
  omega

theorem allocate_preserves_size (st : SchedState) (client_id : String)
    (now : Nat) (get : QueueGet) :
    (allocate_instance st client_id now get).2.instances.length =
      st.instances.length ∧
    (allocate_instance st client_id now get).2.budget = st.budget := by
  cases get with
  | timeout => exact ⟨rfl, rfl⟩
  | cancelled => exact ⟨rfl, rfl⟩
  | raisedOther => exact ⟨rfl, rfl⟩
  | delivered =>
    cases hq : st.ready_queue with
    | nil => simp only [allocate_instance, hq]; exact ⟨by trivial, by trivial⟩
    | cons id rest =>
      cases hl : lookupInst st.instances id with
      | none => simp only [allocate_instance, hq, hl]; exact ⟨by trivial, by trivial⟩
      | some r =>
        by_cases hs : r.status = .ready
        · simp only [allocate_instance, hq, hl, if_pos hs]
          exact ⟨length_updateInst _ _ _, by trivial⟩
        · simp only [allocate_instance, hq, hl, if_neg hs]
          exact ⟨by trivial, by trivial⟩

theorem destroyMarkFn_preserves_size (st : SchedState) (id : String) :
    (destroyMarkFn st id).instances.length = st.instances.length ∧
    (destroyMarkFn st id).budget = st.budget := by
  unfold destroyMarkFn
  cases lookupInst st.instances id with
  | none => exact ⟨rfl, rfl⟩
  | some r => exact ⟨length_updateInst _ _ _, rfl⟩

theorem destroyFinishFn_shrinks (st : SchedState) (id : String) :
    (destroyFinishFn st id).instances.length ≤ st.instances.length ∧
    (destroyFinishFn st id).budget = st.budget := by
  unfold destroyFinishFn
  cases lookupInst st.instances id with
  | none => exact ⟨Nat.le_refl _, rfl⟩
  | some r => exact ⟨length_eraseInst_le _ _, rfl⟩

/-- Inductive invariant behind the capacity bound: registered instances
plus the launches still pending from the current cycle never exceed
`max_pool_size`. -/
theorem reach_capacity_inv (cfg : SchedConfig) (st : SchedState)
    (h : Reach cfg st) :
    st.instances.length + st.budget ≤ cfg.max_pool_size := by
  induction h with
  | refl => exact Nat.zero_le _
  | @tail b c hab hbc ih =>
    cases hbc with
    | pmGrant hb =>
      have hcap := launched_le_capacity cfg b.ready_queue.length
        (countStatus b.instances .creating) (countStatus b.instances .testing)
        b.instances.length
      show b.instances.length +
        launchedCreations cfg b.ready_queue.length
          (countStatus b.instances .creating) (countStatus b.instances .testing)
          b.instances.length ≤ cfg.max_pool_size
      omega
    | createStart id now hbudget hfresh =>
      simp only [List.length_cons]
      omega
    | provisionOk id env ep r hl hr =>
      simp only [length_updateInst]
      exact ih
    | testOk id now r hl hr =>
      simp only [length_updateInst]
      exact ih
    | createFail id msg r hl hr =>
      simp only [length_updateInst]
      exact ih
    | allocate client_id now get =>
      have hs := allocate_preserves_size b client_id now get
      omega
    | destroyMark id r hl =>
      have hs := destroyMarkFn_preserves_size b id
      omega
    | destroyFinish id r hl hr =>
      have hs := destroyFinishFn_shrinks b id
      omega
    | eject id => exact ih

/-- C9: in every reachable scheduler state the registry holds at most
`max_pool_size` records — each pool-manager cycle grants at most
`max_pool_size − total_instances` creations and nothing else inserts
records, so no operation pushes the registry past the cap. -/
theorem c9_capacity_bound (cfg : SchedConfig) (st : SchedState)
    (h : Reach cfg st) : st.instances.length ≤ cfg.max_pool_size := by
  have hinv := reach_capacity_inv cfg st h
  omega

/-- C9 (witness): the bound evaluated on the concrete reachable state
with one inserted instance under cap 4. -/
theorem c9_witness : exS2.instances.length ≤ exCfg.max_pool_size :=
  c9_capacity_bound exCfg exS2
    (Relation.ReflTransGen.tail
      (Relation.ReflTransGen.tail Relation.ReflTransGen.refl
        (Step.pmGrant initState rfl))
      (Step.createStart exS1 "i1" 0 (by decide) rfl))
